import Mathlib

/-!
Verification development for the Windows Security Log Analyzer
(src/models.py, src/sources.py).  Python strings are embedded as
`List Char`; Python `datetime` values as `PyDateTime` (a linearised
wall-clock reading in microseconds plus an optional UTC offset in
minutes — `none` models an offset-naive datetime).  Raw event records
are association lists of `PyVal` field values.  Fallible Python code is
embedded with `Option` / `Except`.
-/

/-- Python-style string: a list of characters. -/
abbrev Str := List Char

/-- Whitespace characters stripped by Python str.strip() (ASCII model). -/
def pyIsSpace (c : Char) : Bool :=
  c = ' ' || c = '\t' || c = '\n' || c = '\r' || c = '\x0b' || c = '\x0c'

/-- Model of Python str.strip(): drop whitespace from both ends. -/
def stripWs (s : Str) : Str :=
  ((s.dropWhile pyIsSpace).reverse.dropWhile pyIsSpace).reverse

/-- Model of Python str.lower() (ASCII model; the repository only
compares ASCII level names and SID signatures). -/
def lowerStr (s : Str) : Str :=
  s.map Char.toLower

/-- True when the second list is an initial segment of the first. -/
def beginsWith : Str → Str → Bool
  | _, [] => true
  | [], _ :: _ => false
  | c :: cs, n :: ns => c = n && beginsWith cs ns

/-- Model of the Python substring test `needle in hay`. -/
def containsSub : Str → Str → Bool
  | hay, needle =>
    beginsWith hay needle ||
      match hay with
      | [] => false
      | _ :: t => containsSub t needle

/-- Model of Python str.split(",") : split on every comma, keeping
empty pieces. -/
def pySplitComma : Str → List Str
  | [] => [[]]
  | c :: cs =>
    if c = ',' then [] :: pySplitComma cs
    else
      match pySplitComma cs with
      | [] => [[c]]
      | t :: ts => (c :: t) :: ts

/-- Model of str.replace("Z", "+00:00") from models.py:72 (single-char
needle, so character-wise). -/
def replaceZ : Str → Str
  | [] => []
  | c :: cs =>
    if c = 'Z' then '+' :: '0' :: '0' :: ':' :: '0' :: '0' :: replaceZ cs
    else c :: replaceZ cs

/-- Model of str.replace("\r\n", " ") from sources.py:95 (left-to-right,
non-overlapping). -/
def replaceCrlfSp : Str → Str
  | '\r' :: '\n' :: rest => ' ' :: replaceCrlfSp rest
  | c :: rest => c :: replaceCrlfSp rest
  | [] => []

/-- Model of str.replace("\n", " ") from sources.py:95. -/
def replaceLfSp : Str → Str
  | [] => []
  | c :: cs => (if c = '\n' then ' ' else c) :: replaceLfSp cs

/-- Numeric value of a decimal digit character. -/
def digitVal? (c : Char) : Option Nat :=
  if c.isDigit then some (c.toNat - '0'.toNat) else none

/-- Two decimal digit characters as a number. -/
def twoDigits? (c1 c2 : Char) : Option Nat :=
  match digitVal? c1, digitVal? c2 with
  | some a, some b => some (a * 10 + b)
  | _, _ => none

/-- Model of Python int(str): strip whitespace, optional sign, then a
nonempty run of decimal digits (underscore digit grouping is not
modelled; the repository never feeds such strings).  Returns none where
Python raises ValueError. -/
def pyIntOfStr (s : Str) : Option Int :=
  let core : Str → Option Nat := fun t =>
    if t ≠ [] && t.all Char.isDigit then
      some (t.foldl (fun a c => a * 10 + (c.toNat - '0'.toNat)) 0)
    else none
  match stripWs s with
  | '+' :: rest => (core rest).map Int.ofNat
  | '-' :: rest => (core rest).map (fun n => -(n : Int))
  | rest => (core rest).map Int.ofNat

/-- Model of a Python datetime value: `wall` is the wall-clock reading
linearised to microseconds since 1970-01-01T00:00:00, and `offset` is
the UTC offset in minutes (`none` = offset-naive). -/
structure PyDateTime where
  wall : Int
  offset : Option Int
deriving DecidableEq, Repr

/-- Comparison instant of a datetime: the wall reading shifted by the
UTC offset.  Within a uniformly-aware or uniformly-naive batch this is
order-isomorphic to Python datetime comparison. -/
def dtKey (d : PyDateTime) : Int :=
  d.wall - (d.offset.getD 0) * 60000000

/-- Model of datetime.fromtimestamp(0) (models.py:70,74): offset-naive;
the local timezone is taken to be UTC so the wall reading is 0. -/
def epochDateTime : PyDateTime :=
  { wall := 0, offset := none }

/-- Gregorian leap year test. -/
def isLeap (y : Nat) : Bool :=
  y % 4 = 0 && (y % 100 ≠ 0 || y % 400 = 0)

/-- Days in a month of the proleptic Gregorian calendar. -/
def daysInMonth (y m : Nat) : Nat :=
  if m = 2 then (if isLeap y then 29 else 28)
  else if m = 4 || m = 6 || m = 9 || m = 11 then 30
  else 31

/-- Days from 1970-01-01 to the given civil date (valid for years
1..9999, the range datetime accepts). -/
def daysFromCivil (y m d : Nat) : Int :=
  let ya : Int := if m ≤ 2 then (y : Int) - 1 else (y : Int)
  let era : Int := ya / 400
  let yoe : Int := ya - era * 400
  let mp : Int := ((m : Int) + 9) % 12
  let doy : Int := (153 * mp + 2) / 5 + (d : Int) - 1
  let doe : Int := yoe * 365 + yoe / 4 - yoe / 100 + doy
  era * 146097 + doe - 719468

/-- Build a datetime from validated components. -/
def mkPyDateTime (y mo da h mi s us : Nat) (off : Option Int) : PyDateTime :=
  { wall := (daysFromCivil y mo da * 86400 +
      (h : Int) * 3600 + (mi : Int) * 60 + (s : Int)) * 1000000 + (us : Int),
    offset := off }

/-- Parse an exact "YYYY-MM-DD" date with range validation, as the
stdlib helper used by datetime.fromisoformat does. -/
def parseIsoDate? : Str → Option (Nat × Nat × Nat)
  | [y1, y2, y3, y4, '-', m1, m2, '-', d1, d2] =>
    match digitVal? y1, digitVal? y2, digitVal? y3, digitVal? y4,
        twoDigits? m1 m2, twoDigits? d1 d2 with
    | some a, some b, some c, some d, some mo, some da =>
      let y := ((a * 10 + b) * 10 + c) * 10 + d
      if 1 ≤ y && 1 ≤ mo && mo ≤ 12 && 1 ≤ da && da ≤ daysInMonth y mo then
        some (y, mo, da)
      else none
    | _, _, _, _, _, _ => none
  | _ => none

/-- Parse "HH", "HH:MM", "HH:MM:SS", "HH:MM:SS.fff" or
"HH:MM:SS.ffffff" with range validation (hour ≤ 23, minute ≤ 59,
second ≤ 59), as datetime.fromisoformat accepts. -/
def parseIsoHms? : Str → Option (Nat × Nat × Nat × Nat)
  | [h1, h2] =>
    match twoDigits? h1 h2 with
    | some h => if h ≤ 23 then some (h, 0, 0, 0) else none
    | none => none
  | [h1, h2, ':', m1, m2] =>
    match twoDigits? h1 h2, twoDigits? m1 m2 with
    | some h, some mi =>
      if h ≤ 23 && mi ≤ 59 then some (h, mi, 0, 0) else none
    | _, _ => none
  | [h1, h2, ':', m1, m2, ':', s1, s2] =>
    match twoDigits? h1 h2, twoDigits? m1 m2, twoDigits? s1 s2 with
    | some h, some mi, some s =>
      if h ≤ 23 && mi ≤ 59 && s ≤ 59 then some (h, mi, s, 0) else none
    | _, _, _ => none
  | [h1, h2, ':', m1, m2, ':', s1, s2, '.', f1, f2, f3] =>
    match twoDigits? h1 h2, twoDigits? m1 m2, twoDigits? s1 s2,
        digitVal? f1, digitVal? f2, digitVal? f3 with
    | some h, some mi, some s, some a, some b, some c =>
      if h ≤ 23 && mi ≤ 59 && s ≤ 59 then
        some (h, mi, s, ((a * 10 + b) * 10 + c) * 1000)
      else none
    | _, _, _, _, _, _ => none
  | [h1, h2, ':', m1, m2, ':', s1, s2, '.', f1, f2, f3, f4, f5, f6] =>
    match twoDigits? h1 h2, twoDigits? m1 m2, twoDigits? s1 s2,
        digitVal? f1, digitVal? f2, digitVal? f3,
        digitVal? f4, digitVal? f5, digitVal? f6 with
    | some h, some mi, some s, some a, some b, some c, some d, some e, some f =>
      if h ≤ 23 && mi ≤ 59 && s ≤ 59 then
        some (h, mi, s, ((((a * 10 + b) * 10 + c) * 10 + d) * 10 + e) * 10 + f)
      else none
    | _, _, _, _, _, _, _, _, _ => none
  | _ => none

/-- Parse a "HH:MM" timezone body with range validation (offset must be
strictly less than 24 hours). -/
def parseIsoTz? (sign : Int) : Str → Option Int
  | [h1, h2, ':', m1, m2] =>
    match twoDigits? h1 h2, twoDigits? m1 m2 with
    | some h, some mi =>
      if h ≤ 23 && mi ≤ 59 then some (sign * ((h : Int) * 60 + (mi : Int)))
      else none
    | _, _ => none
  | _ => none

/-- Split the time-of-day part of an ISO string at its timezone sign,
preferring a '-' over a '+' as the CPython parser does, and parse both
halves. -/
def parseIsoTimePart? (ts : Str) : Option (Nat × Nat × Nat × Nat × Option Int) :=
  match ts.findIdx? (· = '-') with
  | some i =>
    match parseIsoHms? (ts.take i), parseIsoTz? (-1) (ts.drop (i + 1)) with
    | some (h, mi, s, us), some off => some (h, mi, s, us, some off)
    | _, _ => none
  | none =>
    match ts.findIdx? (· = '+') with
    | some i =>
      match parseIsoHms? (ts.take i), parseIsoTz? 1 (ts.drop (i + 1)) with
      | some (h, mi, s, us), some off => some (h, mi, s, us, some off)
      | _, _ => none
    | none =>
      match parseIsoHms? ts with
      | some (h, mi, s, us) => some (h, mi, s, us, none)
      | none => none

/-- Model of datetime.fromisoformat for CPython 3.7-3.10 (the grammar
the repository's Z-replacement at models.py:72 targets): exactly
"YYYY-MM-DD", or that followed by any single separator character and a
time-of-day with optional "+HH:MM"/"-HH:MM" offset.  Returns none where
Python raises ValueError. -/
def fromisoformat (cs : Str) : Option PyDateTime :=
  if cs.length = 10 then
    (parseIsoDate? cs).map (fun t => mkPyDateTime t.1 t.2.1 t.2.2 0 0 0 0 none)
  else if 12 ≤ cs.length then
    match parseIsoDate? (cs.take 10), parseIsoTimePart? (cs.drop 11) with
    | some (y, mo, da), some (h, mi, s, us, off) =>
      some (mkPyDateTime y mo da h mi s us off)
    | _, _ => none
  else none

/-- Embedding of parse_time (models.py:66-74): empty or absent input,
or any string fromisoformat rejects after the Z-replacement, falls back
to the epoch. -/
def parse_time (value : Option Str) : PyDateTime :=
  match value with
  | none => epochDateTime
  | some s =>
    if s = [] then epochDateTime
    else ((fromisoformat (replaceZ s)).getD epochDateTime)

/-- Value of a raw-record field, per the RawRecord shape of the
collectors: absent/null, an integer, a string, or a structured time
value whose sub-fields are optional strings (a nested mapping exposing
a "DateTime" sub-field; repr escaping of special characters inside a
structured value is not modelled — no field of interest is structured
except the time field). -/
inductive PyVal where
  | null : PyVal
  | int (n : Int) : PyVal
  | str (s : Str) : PyVal
  | dict (fields : List (Str × Option Str)) : PyVal
deriving DecidableEq, Repr

/-- A raw event record: a field-name-keyed mapping, as produced by
get_raw_events (sources.py:60-69). -/
abbrev RawRecord := List (Str × PyVal)

/-- Model of raw.get(key): null when the key is absent. -/
def rawGet (raw : RawRecord) (key : Str) : PyVal :=
  match raw.lookup key with
  | some v => v
  | none => PyVal.null

/-- Model of mapping.get(key) on a structured time value: None both
when the key is absent and when it maps to None. -/
def dictGet (fields : List (Str × Option Str)) (key : Str) : Option Str :=
  match fields.lookup key with
  | some v => v
  | none => none

/-- Python truthiness of a raw field value. -/
def pyTruthy : PyVal → Bool
  | PyVal.null => false
  | PyVal.int n => n ≠ 0
  | PyVal.str s => s ≠ []
  | PyVal.dict fields => fields ≠ []

/-- Model of Python str() on a raw field value (string rendering of a
structured value follows Python dict repr shape). -/
def pyStrOf : PyVal → Str
  | PyVal.null => "None".toList
  | PyVal.int n => (toString n).toList
  | PyVal.str s => s
  | PyVal.dict fields =>
    let entry : Str × Option Str → Str := fun kv =>
      '\'' :: kv.1 ++ '\'' :: ':' :: ' ' ::
        (match kv.2 with
         | none => "None".toList
         | some s => '\'' :: s ++ ['\''])
    "\x7b".toList ++ List.intercalate ", ".toList (fields.map entry) ++ "\x7d".toList

/-- Model of the coercion str(value or "") used at sources.py:92-95. -/
def pyStrOr (v : PyVal) : Str :=
  if pyTruthy v then pyStrOf v else []

/-- Model of int(value) under the try/except of sources.py:81-84:
none where Python raises TypeError (null, structured) or ValueError
(non-numeric string). -/
def pyInt : PyVal → Option Int
  | PyVal.null => none
  | PyVal.int n => some n
  | PyVal.str s => pyIntOfStr s
  | PyVal.dict _ => none

/-- Embedding of EventRule (models.py:21-26). -/
structure EventRule where
  category : Str
  severity : Str
deriving DecidableEq, Repr

/-- Embedding of EVENT_RULES (models.py:29-51), in source order. -/
def EVENT_RULES : List (Int × EventRule) :=
  [(4624, { category := "Logon success".toList, severity := "normal".toList }),
   (4625, { category := "Logon failure".toList, severity := "critical".toList }),
   (4634, { category := "Logoff".toList, severity := "normal".toList }),
   (4647, { category := "Logoff".toList, severity := "normal".toList }),
   (4672, { category := "Privilege assigned".toList, severity := "normal".toList }),
   (4688, { category := "Process created".toList, severity := "suspicious".toList }),
   (4689, { category := "Process exited".toList, severity := "info".toList }),
   (4720, { category := "User account change".toList, severity := "suspicious".toList }),
   (4722, { category := "User account change".toList, severity := "suspicious".toList }),
   (4723, { category := "Password change attempt".toList, severity := "suspicious".toList }),
   (4724, { category := "Password change attempt".toList, severity := "suspicious".toList }),
   (4725, { category := "User account change".toList, severity := "suspicious".toList }),
   (4726, { category := "User account change".toList, severity := "suspicious".toList }),
   (4732, { category := "Group membership change".toList, severity := "suspicious".toList }),
   (4733, { category := "Group membership change".toList, severity := "suspicious".toList }),
   (4768, { category := "Kerberos authentication".toList, severity := "info".toList }),
   (4769, { category := "Kerberos authentication".toList, severity := "info".toList }),
   (4770, { category := "Kerberos authentication".toList, severity := "info".toList }),
   (4771, { category := "Kerberos authentication".toList, severity := "info".toList }),
   (4798, { category := "User enumeration".toList, severity := "suspicious".toList }),
   (4799, { category := "User enumeration".toList, severity := "suspicious".toList })]

/-- Embedding of IMPORTANT_EVENT_IDS (models.py:54): the rule-table key
set (a list used for membership). -/
def IMPORTANT_EVENT_IDS : List Int :=
  EVENT_RULES.map (fun r => r.1)

/-- Embedding of categorize_event (models.py:57-63). -/
def categorize_event (event_id : Int) : Str :=
  match EVENT_RULES.lookup event_id with
  | some rule => rule.category
  | none => "Other".toList

/-- Embedding of parse_event_ids (models.py:77-89). -/
def parse_event_ids (value : Option Str) : Option (List Int) :=
  match value with
  | none => none
  | some s =>
    if s = [] then none
    else
      let parts := ((pySplitComma s).map stripWs).filter (fun p => p ≠ [])
      let result := parts.filterMap pyIntOfStr
      if result = [] then none else some result

/-- Embedding of normalize_level_name (models.py:92-106). -/
def normalize_level_name (level : Str) : Str :=
  let value := lowerStr (stripWs level)
  if value = "debug".toList || value = "verbose".toList || value = "trace".toList then
    "debug".toList
  else if value = "information".toList || value = "info".toList then
    "info".toList
  else if value = "warning".toList || value = "warn".toList then
    "warning".toList
  else if value = "error".toList || value = "err".toList then
    "error".toList
  else if value = "critical".toList || value = "fatal".toList then
    "critical".toList
  else
    "info".toList

/-- Embedding of SecurityEvent (models.py:8-18). -/
structure SecurityEvent where
  time_created : PyDateTime
  event_id : Int
  level : Str
  provider : Str
  machine_name : Str
  message : Str
  category : Str
deriving DecidableEq, Repr

/-- Embedding of normalize_event (sources.py:78-105). -/
def normalize_event (raw : RawRecord) : Option SecurityEvent :=
  match pyInt (rawGet raw "Id".toList) with
  | none => none
  | some event_id =>
    let time_created_raw : Option Str :=
      match rawGet raw "TimeCreated".toList with
      | PyVal.str s => some s
      | PyVal.dict fields => dictGet fields "DateTime".toList
      | _ => none
    let time_created := parse_time time_created_raw
    let level := pyStrOr (rawGet raw "LevelDisplayName".toList)
    let provider := pyStrOr (rawGet raw "ProviderName".toList)
    let machine_name := pyStrOr (rawGet raw "MachineName".toList)
    let message := replaceLfSp (replaceCrlfSp (pyStrOr (rawGet raw "Message".toList)))
    let category := categorize_event event_id
    some { time_created, event_id, level, provider, machine_name, message, category }

/-- The lower-cased signature tested by the suppression rule
(sources.py:132). -/
def sysLogonNeedle : Str :=
  "s-1-5-18 system nt authority".toList

/-- The suppression test of sources.py:130-133: hide flag set, event id
4624, and the Local System signature in the lower-cased message. -/
def suppressedSystemLogon (hide_system_logons : Bool) (e : SecurityEvent) : Bool :=
  hide_system_logons && e.event_id = 4624 &&
    containsSub (lowerStr e.message) sysLogonNeedle

/-- The ID filter selection of sources.py:119-123: explicit non-empty
ids win under important_only, else the rule-table key set, else no
filter. -/
def idsFilter (important_only : Bool) (event_ids : Option (List Int)) : Option (List Int) :=
  match important_only, event_ids with
  | true, some (x :: xs) => some (x :: xs)
  | true, _ => some IMPORTANT_EVENT_IDS
  | false, _ => none

/-- The per-event keep test of the collection loop (sources.py:126-136):
normalized events survive unless suppressed or excluded by an active ID
filter. -/
def keepEvent (hide_system_logons : Bool) (filt : Option (List Int)) (e : SecurityEvent) : Bool :=
  !(suppressedSystemLogon hide_system_logons e) &&
    (match filt with
     | none => true
     | some ids => ids.contains e.event_id)

/-- The surviving events of collect_events before the final sort
(sources.py:124-136), in retrieval order. -/
def collectKept (important_only : Bool) (event_ids : Option (List Int))
    (hide_system_logons : Bool) (raws : List RawRecord) : List SecurityEvent :=
  (raws.filterMap normalize_event).filter
    (keepEvent hide_system_logons (idsFilter important_only event_ids))

/-- Python exception surfaced by the embedding. -/
inductive PyError where
  | typeError : PyError
deriving DecidableEq, Repr

/-- Stable descending insertion by comparison instant: a new element is
placed after every element whose instant is at least its own. -/
def insertDesc (e : SecurityEvent) : List SecurityEvent → List SecurityEvent
  | [] => [e]
  | x :: xs =>
    if dtKey x.time_created < dtKey e.time_created then e :: x :: xs
    else x :: insertDesc e xs

/-- Stable descending sort by comparison instant, inserting in
retrieval order. -/
def sortDesc (l : List SecurityEvent) : List SecurityEvent :=
  l.foldl (fun acc e => insertDesc e acc) []

/-- Model of events.sort(key=lambda e: e.time_created, reverse=True)
(sources.py:137,173): Python's sort is stable, and raises TypeError
when the keys mix offset-naive and offset-aware datetimes (any mixed
batch compares such a pair during run detection or merging). -/
def pySortByTimeDesc (l : List SecurityEvent) : Except PyError (List SecurityEvent) :=
  if l.any (fun e => e.time_created.offset.isSome) &&
      l.any (fun e => e.time_created.offset.isNone) then
    Except.error PyError.typeError
  else
    Except.ok (sortDesc l)

/-- Embedding of the pure core of collect_events (sources.py:119-138),
over the raw records already retrieved; the platform check and
get_raw_events (log_name, max_events) are external I/O whose result the
`raws` argument stands for. -/
def collect_events (important_only : Bool) (event_ids : Option (List Int))
    (hide_system_logons : Bool) (raws : List RawRecord) :
    Except PyError (List SecurityEvent) :=
  pySortByTimeDesc (collectKept important_only event_ids hide_system_logons raws)

/-- One Event element of the demo XML after tree parsing: the findtext
results for the six child fields (sources.py:148-153); none models an
absent child. -/
structure DemoEvent where
  timeCreated : Option Str
  id : Option Str
  level : Option Str
  provider : Option Str
  machineName : Option Str
  message : Option Str
deriving DecidableEq, Repr

/-- The per-element conversion of load_events_from_demo_xml
(sources.py:148-172): drop the element unless Id is present and parses
as an integer; the message text is used verbatim. -/
def demoNormalize (el : DemoEvent) : Option SecurityEvent :=
  match el.id with
  | none => none
  | some idText =>
    match pyIntOfStr idText with
    | none => none
    | some event_id =>
      some { time_created := parse_time el.timeCreated,
             event_id,
             level := el.level.getD [],
             provider := el.provider.getD [],
             machine_name := el.machineName.getD [],
             message := el.message.getD [],
             category := categorize_event event_id }

/-- Embedding of the pure core of load_events_from_demo_xml
(sources.py:141-174), over the already-parsed Event elements; ET.parse
and the file path are external I/O. -/
def load_events_from_demo_xml (els : List DemoEvent) :
    Except PyError (List SecurityEvent) :=
  pySortByTimeDesc (els.filterMap demoNormalize)

/-- Descending order by comparison instant, the relation established by
the final sort. -/
def descBy (a b : SecurityEvent) : Prop :=
  dtKey b.time_created ≤ dtKey a.time_created

theorem mem_insertDesc {a e : SecurityEvent} {l : List SecurityEvent} :
    a ∈ insertDesc e l ↔ a = e ∨ a ∈ l := by
  induction l with
  | nil => simp [insertDesc]
  | cons x xs ih =>
    by_cases h : dtKey x.time_created < dtKey e.time_created
    · simp only [insertDesc, if_pos h, List.mem_cons]
      try tauto
    · simp only [insertDesc, if_neg h, List.mem_cons, ih]
      try tauto

theorem pairwise_insertDesc {e : SecurityEvent} {l : List SecurityEvent}
    (h : l.Pairwise descBy) : (insertDesc e l).Pairwise descBy := by
  induction l with
  | nil => simp [insertDesc, List.pairwise_singleton]
  | cons x xs ih =>
    rcases List.pairwise_cons.mp h with ⟨h1, h2⟩
    by_cases hc : dtKey x.time_created < dtKey e.time_created
    · rw [insertDesc, if_pos hc]
      refine List.pairwise_cons.mpr ⟨?_, h⟩
      intro y hy
      rcases List.mem_cons.mp hy with rfl | hy
      · exact le_of_lt hc
      · exact le_trans (h1 y hy) (le_of_lt hc)
    · rw [insertDesc, if_neg hc]
      refine List.pairwise_cons.mpr ⟨?_, ih h2⟩
      intro y hy
      rcases mem_insertDesc.mp hy with rfl | hy
      · exact not_lt.mp hc
      · exact h1 y hy

theorem filter_insertDesc (t : Int) {e : SecurityEvent} {l : List SecurityEvent}
    (h : l.Pairwise descBy) :
    (insertDesc e l).filter (fun a => dtKey a.time_created == t) =
      if dtKey e.time_created == t then
        l.filter (fun a => dtKey a.time_created == t) ++ [e]
      else
        l.filter (fun a => dtKey a.time_created == t) := by
  induction l with
  | nil =>
    by_cases ht : dtKey e.time_created = t
    · simp [insertDesc, List.filter_cons, ht]
    · have ht' : (dtKey e.time_created == t) = false := by simpa using ht
      simp [insertDesc, List.filter_cons, ht', ht]
  | cons x xs ih =>
    rcases List.pairwise_cons.mp h with ⟨h1, h2⟩
    by_cases hc : dtKey x.time_created < dtKey e.time_created
    · rw [insertDesc, if_pos hc]
      by_cases ht : dtKey e.time_created = t
      · have he : (dtKey e.time_created == t) = true := by simpa using ht
        have hnil : (x :: xs).filter (fun a => dtKey a.time_created == t) = [] := by
          apply List.filter_eq_nil_iff.mpr
          intro a ha
          rcases List.mem_cons.mp ha with rfl | ha
          · simp only [beq_iff_eq]
            omega
          · have h1a := h1 a ha
            unfold descBy at h1a
            simp only [beq_iff_eq]
            omega
        rw [if_pos he, List.filter_cons, hnil]
        simp [he, List.filter_cons]
      · have ht' : (dtKey e.time_created == t) = false := by simpa using ht
        simp [List.filter_cons, ht']
    · rw [insertDesc, if_neg hc]
      rw [List.filter_cons, List.filter_cons, ih h2]
      by_cases ht : dtKey e.time_created = t <;>
        by_cases hx : dtKey x.time_created = t <;>
          simp [ht, hx, beq_iff_eq]

theorem pairwise_foldl_insert (l : List SecurityEvent) :
    ∀ acc : List SecurityEvent, acc.Pairwise descBy →
      (l.foldl (fun a e => insertDesc e a) acc).Pairwise descBy := by
  induction l with
  | nil => intro acc h; exact h
  | cons x xs ih =>
    intro acc h
    exact ih _ (pairwise_insertDesc h)

theorem filter_foldl_insert (t : Int) (l : List SecurityEvent) :
    ∀ acc : List SecurityEvent, acc.Pairwise descBy →
      (l.foldl (fun a e => insertDesc e a) acc).filter
          (fun a => dtKey a.time_created == t) =
        acc.filter (fun a => dtKey a.time_created == t) ++
          l.filter (fun a => dtKey a.time_created == t) := by
  induction l with
  | nil => intro acc h; simp
  | cons x xs ih =>
    intro acc h
    rw [List.foldl_cons, ih _ (pairwise_insertDesc h), filter_insertDesc t h,
      List.filter_cons]
    by_cases hx : dtKey x.time_created = t <;>
      simp [hx, beq_iff_eq]

theorem sortDesc_pairwise (l : List SecurityEvent) :
    (sortDesc l).Pairwise descBy :=
  pairwise_foldl_insert l [] (by simp)

theorem sortDesc_filter_key (t : Int) (l : List SecurityEvent) :
    (sortDesc l).filter (fun a => dtKey a.time_created == t) =
      l.filter (fun a => dtKey a.time_created == t) := by
  rw [sortDesc, filter_foldl_insert t l [] (by simp)]
  simp

theorem sortDesc_mem {a : SecurityEvent} {l : List SecurityEvent} :
    a ∈ sortDesc l ↔ a ∈ l := by
  have hfa : a ∈ (sortDesc l).filter (fun x => dtKey x.time_created == dtKey a.time_created) ↔
      a ∈ l.filter (fun x => dtKey x.time_created == dtKey a.time_created) := by
    rw [sortDesc_filter_key]
  simp only [List.mem_filter, beq_self_eq_true, and_true] at hfa
  exact hfa

theorem pySortByTimeDesc_ok {l out : List SecurityEvent}
    (h : pySortByTimeDesc l = Except.ok out) : out = sortDesc l := by
  rw [pySortByTimeDesc] at h
  split_ifs at h
  exact (Except.ok.inj h).symm

theorem collect_events_ok {important_only : Bool} {event_ids : Option (List Int)}
    {hide_system_logons : Bool} {raws : List RawRecord} {out : List SecurityEvent}
    (h : collect_events important_only event_ids hide_system_logons raws = Except.ok out) :
    out = sortDesc (collectKept important_only event_ids hide_system_logons raws) :=
  pySortByTimeDesc_ok h

theorem load_demo_ok {els : List DemoEvent} {out : List SecurityEvent}
    (h : load_events_from_demo_xml els = Except.ok out) :
    out = sortDesc (els.filterMap demoNormalize) :=
  pySortByTimeDesc_ok h

theorem parse_time_some (s : Str) :
    parse_time (some s) =
      if s = [] then epochDateTime
      else (fromisoformat (replaceZ s)).getD epochDateTime := rfl

theorem replaceZ_append (a b : Str) :
    replaceZ (a ++ b) = replaceZ a ++ replaceZ b := by
  induction a with
  | nil => rfl
  | cons c cs ih =>
    by_cases h : c = 'Z' <;> simp [replaceZ, h, ih]

theorem replaceZ_eq_self {s : Str} (h : 'Z' ∉ s) : replaceZ s = s := by
  induction s with
  | nil => rfl
  | cons c cs ih =>
    simp only [List.mem_cons, not_or] at h
    have hc : ¬(c = 'Z') := fun hh => h.1 hh.symm
    simp [replaceZ, hc, ih h.2]

theorem newline_not_mem_replaceLfSp (s : Str) : '\n' ∉ replaceLfSp s := by
  induction s with
  | nil => simp [replaceLfSp]
  | cons c cs ih =>
    simp only [replaceLfSp, List.mem_cons, not_or]
    refine ⟨?_, ih⟩
    by_cases h : c = '\n'
    · intro hh
      rw [if_pos h] at hh
      exact absurd hh (by decide)
    · intro hh
      rw [if_neg h] at hh
      exact h hh.symm

/-- C6: a raw record whose id field parses as an integer normalizes to
a SecurityEvent carrying exactly that integer as event_id; a record
without a parseable integer id (missing, non-numeric, or null)
normalizes to no result — the embedding is a total function into
Option, so no error can be raised either way. -/
theorem claim_C6 : ∀ raw : RawRecord,
    (∀ n : Int, pyInt (rawGet raw "Id".toList) = some n →
      (normalize_event raw).map (fun e => e.event_id) = some n) ∧
    (pyInt (rawGet raw "Id".toList) = none → normalize_event raw = none) := by
  intro raw
  constructor
  · intro n h
    unfold normalize_event
    rw [h]
    rfl
  · intro h
    unfold normalize_event
    rw [h]

/-- C6 witness: a record with string id "4624" yields an event with
event_id 4624; a record with non-numeric id "abc" yields none. -/
theorem claim_C6_witness :
    (normalize_event [("Id".toList, PyVal.str "4624".toList)]).map
        (fun e => e.event_id) = some 4624 ∧
    normalize_event [("Id".toList, PyVal.str "abc".toList)] = none :=
  ⟨(claim_C6 [("Id".toList, PyVal.str "4624".toList)]).1 4624 (by decide),
   (claim_C6 [("Id".toList, PyVal.str "abc".toList)]).2 (by decide)⟩

/-- C9: normalize_level_name is total (a plain function on all
strings); it lower-cases and trims its input, maps the fixed synonym
sets of the five canonical levels, and yields "info" for every other
input including the empty string. -/
theorem claim_C9 :
    (∀ s : Str, normalize_level_name s =
      (let value := lowerStr (stripWs s)
       if value ∈ ["debug".toList, "verbose".toList, "trace".toList] then
         "debug".toList
       else if value ∈ ["information".toList, "info".toList] then
         "info".toList
       else if value ∈ ["warning".toList, "warn".toList] then
         "warning".toList
       else if value ∈ ["error".toList, "err".toList] then
         "error".toList
       else if value ∈ ["critical".toList, "fatal".toList] then
         "critical".toList
       else
         "info".toList)) ∧
    normalize_level_name [] = "info".toList := by
  constructor
  · intro s
    simp only [normalize_level_name, List.mem_cons, List.mem_singleton,
      List.not_mem_nil, or_false]
    split_ifs <;> simp_all [Bool.or_eq_true, decide_eq_true_eq]
  · rfl

/-- C10: parse_event_ids never fails (it is a total function): none for
missing or empty input; otherwise split on commas, trim, drop empty
tokens, skip non-integer tokens, and none when no token parses — a
fully non-numeric list behaves as if no explicit ids were given. -/
theorem claim_C10 :
    parse_event_ids none = none ∧
    parse_event_ids (some []) = none ∧
    (∀ s : Str, parse_event_ids (some s) =
      (if ((((pySplitComma s).map stripWs).filter
            (fun p => p ≠ [])).filterMap pyIntOfStr) = [] then none
       else some ((((pySplitComma s).map stripWs).filter
            (fun p => p ≠ [])).filterMap pyIntOfStr))) ∧
    (∀ s : Str,
      (∀ p ∈ ((pySplitComma s).map stripWs).filter (fun p => p ≠ []),
        pyIntOfStr p = none) →
      parse_event_ids (some s) = none) := by
  have h3 : ∀ s : Str, parse_event_ids (some s) =
      (if ((((pySplitComma s).map stripWs).filter
            (fun p => p ≠ [])).filterMap pyIntOfStr) = [] then none
       else some ((((pySplitComma s).map stripWs).filter
            (fun p => p ≠ [])).filterMap pyIntOfStr)) := by
    intro s
    by_cases hs : s = []
    · subst hs
      rfl
    · simp [parse_event_ids, hs]
  refine ⟨rfl, rfl, h3, fun s h => ?_⟩
  have hres : (((pySplitComma s).map stripWs).filter
      (fun p => p ≠ [])).filterMap pyIntOfStr = [] :=
    List.filterMap_eq_nil_iff.mpr h
  rw [h3 s, if_pos hres]

/-- C10 witness: a fully non-numeric explicit id list such as "a, b"
yields none, exactly as a missing list does. -/
theorem claim_C10_witness :
    parse_event_ids (some "a, b".toList) = none :=
  claim_C10.2.2.2 "a, b".toList (by decide)

/-- C8: with hide_system_logons set, the collection pipeline drops
exactly those normalized, filter-surviving events whose event_id is
4624 and whose lower-cased message contains "s-1-5-18 system nt
authority"; no other event is affected by the suppression rule, and the
final result is the same pipeline applied to the suppression-filtered
survivors. -/
theorem claim_C8 :
    (∀ (important_only : Bool) (event_ids : Option (List Int)) (raws : List RawRecord),
      collectKept important_only event_ids true raws =
        (collectKept important_only event_ids false raws).filter
          (fun e => !(decide (e.event_id = 4624) &&
            containsSub (lowerStr e.message) sysLogonNeedle))) ∧
    (∀ (important_only : Bool) (event_ids : Option (List Int)) (raws : List RawRecord),
      collect_events important_only event_ids true raws =
        pySortByTimeDesc
          ((collectKept important_only event_ids false raws).filter
            (fun e => !(decide (e.event_id = 4624) &&
              containsSub (lowerStr e.message) sysLogonNeedle)))) := by
  have hkept : ∀ (important_only : Bool) (event_ids : Option (List Int))
      (raws : List RawRecord),
      collectKept important_only event_ids true raws =
        (collectKept important_only event_ids false raws).filter
          (fun e => !(decide (e.event_id = 4624) &&
            containsSub (lowerStr e.message) sysLogonNeedle)) := by
    intro imp ids raws
    unfold collectKept
    rw [List.filter_filter]
    apply List.filter_congr
    intro a _
    rcases hf : idsFilter imp ids with _ | ids'
    · simp only [keepEvent, suppressedSystemLogon, Bool.false_and, Bool.not_false,
        Bool.true_and, Bool.and_true]
    · simp only [keepEvent, suppressedSystemLogon, Bool.false_and, Bool.not_false,
        Bool.true_and]
  exact ⟨hkept, fun imp ids raws => by rw [collect_events, hkept]⟩

/-- C2: the ID filter of collect_events is the explicit set when
important_only holds and explicit ids are non-empty, the full rule
table key set when important_only holds and no explicit ids are given
(absent or empty), and absent when important_only is false — in which
case every normalized event passes regardless of id; under an explicit
filter of just 4625, only id-4625 events survive (so a 4624 event is
excluded despite being in the rule table), while under the default
filter a 4624 event surviving suppression is included. -/
theorem claim_C2 :
    (∀ (x : Int) (xs : List Int), idsFilter true (some (x :: xs)) = some (x :: xs)) ∧
    idsFilter true none = some IMPORTANT_EVENT_IDS ∧
    idsFilter true (some []) = some IMPORTANT_EVENT_IDS ∧
    (∀ event_ids : Option (List Int), idsFilter false event_ids = none) ∧
    (∀ (event_ids : Option (List Int)) (hide : Bool) (raws : List RawRecord),
      collectKept false event_ids hide raws =
        (raws.filterMap normalize_event).filter
          (fun e => !(suppressedSystemLogon hide e))) ∧
    (∀ (hide : Bool) (raws : List RawRecord) (e : SecurityEvent),
      e ∈ collectKept true (some [4625]) hide raws → e.event_id = 4625) ∧
    (∀ (hide : Bool) (raws : List RawRecord) (e : SecurityEvent),
      e ∈ raws.filterMap normalize_event →
      suppressedSystemLogon hide e = false →
      e.event_id = 4624 →
      e ∈ collectKept true none hide raws) := by
  refine ⟨fun x xs => rfl, rfl, rfl, ?_, ?_, ?_, ?_⟩
  · intro ids
    rcases ids with _ | l
    · rfl
    · rcases l with _ | ⟨x, xs⟩ <;> rfl
  · intro ids hide raws
    unfold collectKept
    apply List.filter_congr
    intro a _
    rcases hf : idsFilter false ids with _ | ids'
    · simp [keepEvent]
    · rcases ids with _ | l
      · cases hf
      · rcases l with _ | ⟨x, xs⟩ <;> cases hf
  · intro hide raws e h
    have hk := (List.mem_filter.mp h).2
    simp only [keepEvent, idsFilter, Bool.and_eq_true] at hk
    have hc := hk.2
    simpa using hc
  · intro hide raws e hmem hsupp hid
    refine List.mem_filter.mpr ⟨hmem, ?_⟩
    simp only [keepEvent, idsFilter, hsupp, Bool.not_false, Bool.true_and]
    rw [hid]
    decide

/-- C2 witness: under important_only with explicit filter just 4625, an
id-4625 record's event survives and its id is 4625; under the default
filter, an id-4624 record's event is included. -/
theorem claim_C2_witness :
    ({ time_created := { wall := 0, offset := none }, event_id := 4625,
       level := [], provider := [], machine_name := [], message := [],
       category := "Logon failure".toList } : SecurityEvent).event_id = 4625 ∧
    ({ time_created := { wall := 0, offset := none }, event_id := 4624,
       level := [], provider := [], machine_name := [], message := [],
       category := "Logon success".toList } : SecurityEvent) ∈
      collectKept true none false [[("Id".toList, PyVal.int 4624)]] :=
  ⟨claim_C2.2.2.2.2.2.1 false [[("Id".toList, PyVal.int 4625)]] _ (by decide),
   claim_C2.2.2.2.2.2.2 false [[("Id".toList, PyVal.int 4624)]] _ (by decide)
     (by decide) rfl⟩

/-- C3: whenever collect_events (or the demo-file loader) returns a
batch, that batch is ordered by descending comparison instant of
time_created, and for every instant the events carrying it appear
exactly as in the pre-sort surviving sequence (original retrieval
order — the sort is stable). -/
theorem claim_C3 :
    (∀ (important_only : Bool) (event_ids : Option (List Int)) (hide : Bool)
        (raws : List RawRecord) (out : List SecurityEvent),
      collect_events important_only event_ids hide raws = Except.ok out →
        out.Pairwise descBy ∧
        ∀ t : Int, out.filter (fun e => dtKey e.time_created == t) =
          (collectKept important_only event_ids hide raws).filter
            (fun e => dtKey e.time_created == t)) ∧
    (∀ (els : List DemoEvent) (out : List SecurityEvent),
      load_events_from_demo_xml els = Except.ok out →
        out.Pairwise descBy ∧
        ∀ t : Int, out.filter (fun e => dtKey e.time_created == t) =
          (els.filterMap demoNormalize).filter
            (fun e => dtKey e.time_created == t)) := by
  constructor
  · intro imp ids hide raws out h
    have hout := collect_events_ok h
    subst hout
    exact ⟨sortDesc_pairwise _, fun t => sortDesc_filter_key t _⟩
  · intro els out h
    have hout := load_demo_ok h
    subst hout
    exact ⟨sortDesc_pairwise _, fun t => sortDesc_filter_key t _⟩

/-- C3 witness: a three-record batch with times 10:00:02, 10:00:05,
10:00:01 comes back descending (10:00:05 first) and, at instant
10:00:05, agrees with the pre-sort surviving sequence. -/
theorem claim_C3_witness :
    ([{ time_created := { wall := 1717236005000000, offset := none }, event_id := 2,
        level := [], provider := [], machine_name := [], message := [],
        category := "Other".toList },
      { time_created := { wall := 1717236002000000, offset := none }, event_id := 1,
        level := [], provider := [], machine_name := [], message := [],
        category := "Other".toList },
      { time_created := { wall := 1717236001000000, offset := none }, event_id := 3,
        level := [], provider := [], machine_name := [], message := [],
        category := "Other".toList }] : List SecurityEvent).Pairwise descBy ∧
    ([{ time_created := { wall := 1717236005000000, offset := none }, event_id := 2,
        level := [], provider := [], machine_name := [], message := [],
        category := "Other".toList },
      { time_created := { wall := 1717236002000000, offset := none }, event_id := 1,
        level := [], provider := [], machine_name := [], message := [],
        category := "Other".toList },
      { time_created := { wall := 1717236001000000, offset := none }, event_id := 3,
        level := [], provider := [], machine_name := [], message := [],
        category := "Other".toList }] : List SecurityEvent).filter
        (fun e => dtKey e.time_created == 1717236005000000) =
      (collectKept false none false
        [[("Id".toList, PyVal.int 1),
          ("TimeCreated".toList, PyVal.str "2024-06-01T10:00:02".toList)],
         [("Id".toList, PyVal.int 2),
          ("TimeCreated".toList, PyVal.str "2024-06-01T10:00:05".toList)],
         [("Id".toList, PyVal.int 3),
          ("TimeCreated".toList, PyVal.str "2024-06-01T10:00:01".toList)]]).filter
        (fun e => dtKey e.time_created == 1717236005000000) := by
  have h := claim_C3.1 false none false
    [[("Id".toList, PyVal.int 1),
      ("TimeCreated".toList, PyVal.str "2024-06-01T10:00:02".toList)],
     [("Id".toList, PyVal.int 2),
      ("TimeCreated".toList, PyVal.str "2024-06-01T10:00:05".toList)],
     [("Id".toList, PyVal.int 3),
      ("TimeCreated".toList, PyVal.str "2024-06-01T10:00:01".toList)]]
    [{ time_created := { wall := 1717236005000000, offset := none }, event_id := 2,
       level := [], provider := [], machine_name := [], message := [],
       category := "Other".toList },
     { time_created := { wall := 1717236002000000, offset := none }, event_id := 1,
       level := [], provider := [], machine_name := [], message := [],
       category := "Other".toList },
     { time_created := { wall := 1717236001000000, offset := none }, event_id := 3,
       level := [], provider := [], machine_name := [], message := [],
       category := "Other".toList }]
    rfl
  exact ⟨h.1, h.2 1717236005000000⟩

/-- C7: the time field is used directly when it is a plain string and
via its "DateTime" sub-field when it is a structured value; parsing
follows the embedded ISO-8601 grammar after rewriting 'Z' to "+00:00",
so a string whose only 'Z' is trailing parses exactly as with "+00:00"
appended in its place; and every failing input — absent, empty, or
rejected by the grammar — yields the Unix epoch instead of an error
(parse_time is a total function). -/
theorem claim_C7 :
    (∀ (raw : RawRecord) (s : Str) (e : SecurityEvent),
      rawGet raw "TimeCreated".toList = PyVal.str s →
      normalize_event raw = some e →
      e.time_created = parse_time (some s)) ∧
    (∀ (raw : RawRecord) (fields : List (Str × Option Str)) (e : SecurityEvent),
      rawGet raw "TimeCreated".toList = PyVal.dict fields →
      normalize_event raw = some e →
      e.time_created = parse_time (dictGet fields "DateTime".toList)) ∧
    parse_time none = epochDateTime ∧
    (∀ s : Str, fromisoformat (replaceZ s) = none →
      parse_time (some s) = epochDateTime) ∧
    (∀ (s : Str) (d : PyDateTime), fromisoformat (replaceZ s) = some d → s ≠ [] →
      parse_time (some s) = d) ∧
    (∀ s : Str, 'Z' ∉ s →
      parse_time (some (s ++ ['Z'])) =
        parse_time (some (s ++ "+00:00".toList))) := by
  refine ⟨?_, ?_, rfl, ?_, ?_, ?_⟩
  · intro raw s e hT hN
    unfold normalize_event at hN
    cases hpy : pyInt (rawGet raw "Id".toList) with
    | none =>
      rw [hpy] at hN
      cases hN
    | some n =>
      rw [hpy] at hN
      have he := Option.some.inj hN
      subst he
      rw [hT]
  · intro raw fields e hT hN
    unfold normalize_event at hN
    cases hpy : pyInt (rawGet raw "Id".toList) with
    | none =>
      rw [hpy] at hN
      cases hN
    | some n =>
      rw [hpy] at hN
      have he := Option.some.inj hN
      subst he
      rw [hT]
  · intro s h
    by_cases hs : s = []
    · simp [parse_time, hs]
    · simp [parse_time, hs, h]
  · intro s d h hne
    simp [parse_time, hne, h]
  · intro s hz
    have h1 : s ++ ['Z'] ≠ [] := by simp
    have h2 : s ++ "+00:00".toList ≠ [] := by simp
    rw [parse_time_some, parse_time_some, if_neg h1, if_neg h2, replaceZ_append,
      replaceZ_append, replaceZ_eq_self hz]
    rfl

/-- C7 witness: a plain-string "2024-06-01T12:00:00Z" time field is
parsed directly through parse_time; the unparseable string "garbage"
falls back to the epoch; and the trailing-Z form parses exactly as the
"+00:00" form. -/
theorem claim_C7_witness :
    ({ time_created := { wall := 1717243200000000, offset := some 0 },
       event_id := 4624, level := [], provider := [], machine_name := [],
       message := [], category := "Logon success".toList } :
        SecurityEvent).time_created =
      parse_time (some "2024-06-01T12:00:00Z".toList) ∧
    parse_time (some "garbage".toList) = epochDateTime ∧
    parse_time (some ("2024-06-01T12:00:00".toList ++ ['Z'])) =
      parse_time (some ("2024-06-01T12:00:00".toList ++ "+00:00".toList)) :=
  ⟨claim_C7.1
      [("Id".toList, PyVal.int 4624),
       ("TimeCreated".toList, PyVal.str "2024-06-01T12:00:00Z".toList)]
      "2024-06-01T12:00:00Z".toList
      { time_created := { wall := 1717243200000000, offset := some 0 },
        event_id := 4624, level := [], provider := [], machine_name := [],
        message := [], category := "Logon success".toList }
      rfl rfl,
   claim_C7.2.2.2.1 "garbage".toList (by decide),
   claim_C7.2.2.2.2.2 "2024-06-01T12:00:00".toList (by decide)⟩

/-- C1 counterexample: with hide_system_logons set, a 4624 event whose
message contains (case-insensitively) "S-1-5-18 NT AUTHORITY\SYSTEM" —
but not the signature the code actually tests — is NOT excluded: it
appears in the returned batch. -/
theorem claim_C1_counterexample :
    ((collect_events false none true
        [[("Id".toList, PyVal.int 4624),
          ("TimeCreated".toList, PyVal.str "2024-06-01T12:00:00".toList),
          ("Message".toList,
            PyVal.str "An account was successfully logged on S-1-5-18 NT AUTHORITY\\SYSTEM".toList)]]).toOption.getD
      []).any
      (fun e => decide (e.event_id = 4624) &&
        containsSub (lowerStr e.message)
          (lowerStr "S-1-5-18 NT AUTHORITY\\SYSTEM".toList)) = true := by
  decide

/-- C1 amended: the suppression rule tests the literal lower-cased
signature "s-1-5-18 system nt authority" (word order as in the code),
not "S-1-5-18 NT AUTHORITY\SYSTEM"; with hide_system_logons=false no
event's message is examined at all (only the ID filter applies), and
with hide_system_logons=true exactly the 4624 events whose lower-cased
message contains that signature are dropped. -/
theorem claim_C1_amended :
    (∀ (important_only : Bool) (event_ids : Option (List Int)) (raws : List RawRecord),
      collectKept important_only event_ids false raws =
        (raws.filterMap normalize_event).filter
          (fun e => match idsFilter important_only event_ids with
            | none => true
            | some ids => ids.contains e.event_id)) ∧
    (∀ (raws : List RawRecord) (e : SecurityEvent),
      e ∈ raws.filterMap normalize_event →
      containsSub (lowerStr e.message) sysLogonNeedle = true →
      e.event_id = 4624 →
      e ∉ collectKept false none true raws) := by
  constructor
  · intro imp ids raws
    unfold collectKept
    apply List.filter_congr
    intro a _
    rcases hf : idsFilter imp ids with _ | ids' <;>
      simp [keepEvent, suppressedSystemLogon, hf]
  · intro raws e hmem hcont hid hin
    have hk := (List.mem_filter.mp hin).2
    simp [keepEvent, suppressedSystemLogon, hid, hcont] at hk

/-- C1 amended witness: the event of a 4624 record whose message is
exactly the code's signature is dropped when hide_system_logons is
set. -/
theorem claim_C1_amended_witness :
    ({ time_created := { wall := 0, offset := none }, event_id := 4624,
       level := [], provider := [], machine_name := [],
       message := "s-1-5-18 system nt authority".toList,
       category := "Logon success".toList } : SecurityEvent) ∉
      collectKept false none true
        [[("Id".toList, PyVal.int 4624),
          ("Message".toList, PyVal.str "s-1-5-18 system nt authority".toList)]] :=
  claim_C1_amended.2
    [[("Id".toList, PyVal.int 4624),
      ("Message".toList, PyVal.str "s-1-5-18 system nt authority".toList)]]
    { time_created := { wall := 0, offset := none }, event_id := 4624,
      level := [], provider := [], machine_name := [],
      message := "s-1-5-18 system nt authority".toList,
      category := "Logon success".toList }
    (by decide) (by decide) rfl

/-- C4 counterexample: the demo-file loader copies the Message text
verbatim, so a demo event whose message holds a bare LF produces a
SecurityEvent whose message still contains a newline. -/
theorem claim_C4_counterexample :
    ((load_events_from_demo_xml
        [{ timeCreated := some "2024-06-01T10:00:00".toList,
           id := some "4688".toList,
           level := some "Information".toList,
           provider := none, machineName := none,
           message := some "line1\nline2".toList }]).toOption.getD []).any
      (fun e => decide ('\n' ∈ e.message)) = true := by
  decide

/-- C4 amended: only the record normalizer collapses CRLF and bare LF
to single spaces (so none of its events' messages contains a newline);
the demo-file loader stores the Message text verbatim, newlines
included. -/
theorem claim_C4_amended :
    (∀ (raw : RawRecord) (e : SecurityEvent),
      normalize_event raw = some e →
      e.message = replaceLfSp (replaceCrlfSp (pyStrOr (rawGet raw "Message".toList))) ∧
      '\n' ∉ e.message) ∧
    (∀ (el : DemoEvent) (e : SecurityEvent),
      demoNormalize el = some e →
      e.message = el.message.getD []) := by
  constructor
  · intro raw e hN
    unfold normalize_event at hN
    cases hpy : pyInt (rawGet raw "Id".toList) with
    | none =>
      rw [hpy] at hN
      cases hN
    | some n =>
      rw [hpy] at hN
      have he := Option.some.inj hN
      subst he
      exact ⟨rfl, newline_not_mem_replaceLfSp _⟩
  · intro el e hD
    unfold demoNormalize at hD
    split at hD
    · cases hD
    · split at hD
      · cases hD
      · have he := Option.some.inj hD
        subst he
        rfl

/-- C4 amended witness: a live record with message "a\r\nb" normalizes
to message "a b" with no newline; a demo element with message
"line1\nline2" keeps it verbatim. -/
theorem claim_C4_amended_witness :
    (({ time_created := { wall := 0, offset := none }, event_id := 1,
        level := [], provider := [], machine_name := [],
        message := "a b".toList, category := "Other".toList } :
          SecurityEvent).message =
        replaceLfSp (replaceCrlfSp (pyStrOr (rawGet
          [("Id".toList, PyVal.int 1),
           ("Message".toList, PyVal.str "a\r\nb".toList)] "Message".toList))) ∧
      '\n' ∉ ({ time_created := { wall := 0, offset := none }, event_id := 1,
                 level := [], provider := [], machine_name := [],
                 message := "a b".toList, category := "Other".toList } :
                  SecurityEvent).message) ∧
    ({ time_created := { wall := 0, offset := none }, event_id := 4688,
       level := [], provider := [], machine_name := [],
       message := "line1\nline2".toList,
       category := "Process created".toList } : SecurityEvent).message =
      (some "line1\nline2".toList : Option Str).getD [] :=
  ⟨claim_C4_amended.1
      [("Id".toList, PyVal.int 1),
       ("Message".toList, PyVal.str "a\r\nb".toList)]
      { time_created := { wall := 0, offset := none }, event_id := 1,
        level := [], provider := [], machine_name := [],
        message := "a b".toList, category := "Other".toList }
      (by decide),
   claim_C4_amended.2
      { timeCreated := none, id := some "4688".toList, level := none,
        provider := none, machineName := none,
        message := some "line1\nline2".toList }
      { time_created := { wall := 0, offset := none }, event_id := 4688,
        level := [], provider := [], machine_name := [],
        message := "line1\nline2".toList,
        category := "Process created".toList }
      (by decide)⟩

/-- C5 (code_bug): a batch mixing a record whose "Z"-suffixed timestamp
parses offset-aware with a record whose unparseable timestamp degrades
to the offset-naive epoch makes the final sort raise TypeError, so a
per-record timestamp problem escalates to the caller — contradicting
the absorb-locally contract; the second conjunct shows the degraded
record itself did normalize to the epoch. -/
theorem claim_C5_code_bug :
    collect_events false none false
      [[("Id".toList, PyVal.int 4624),
        ("TimeCreated".toList, PyVal.str "2024-06-01T12:00:00Z".toList),
        ("Message".toList, PyVal.str "An account was successfully logged on".toList)],
       [("Id".toList, PyVal.int 4625),
        ("TimeCreated".toList, PyVal.str "not-a-timestamp".toList),
        ("Message".toList, PyVal.str "An account failed to log on".toList)]] =
      Except.error PyError.typeError ∧
    (normalize_event
        [("Id".toList, PyVal.int 4625),
         ("TimeCreated".toList, PyVal.str "not-a-timestamp".toList),
         ("Message".toList, PyVal.str "An account failed to log on".toList)]).map
      (fun e => e.time_created) = some epochDateTime := by
  exact ⟨rfl, by decide⟩
